import Mathlib

/-!
Verification of the nutmeg terminal progress-bar library (`src/lib.rs` and
`src/width.rs`), as a shallow embedding in Lean 4.

Time (`Instant` / `Duration`) is modelled as `Nat`; `Instant` subtraction is
saturating, matching Rust. Bytes are modelled as `Nat` values (valid bytes are
below 256; larger values are rejected by UTF-8 validation exactly as invalid
bytes are). All output written through `InnerView::write_output` — whether the
destination is Stdout, Stderr or Capture — is accumulated in the `out` field,
so that the bytes emitted by each operation are observable. Environment
inputs (the real clock, tty-ness of the streams, terminal widths, `$TERM`)
are gathered in an `Env` record passed to the operations that consult them.
Panics are modelled by `Except`/`Option` results.
-/

namespace Nutmeg

/-! ### ansi.rs -/

def ESC : String := "\x1b"

def MOVE_TO_START_OF_LINE : String := "\x1b[1G"

def DISABLE_LINE_WRAP : String := "\x1b[?7l"

def ENABLE_LINE_WRAP : String := "\x1b[?7h"

def CLEAR_TO_END_OF_SCREEN : String := "\x1b[0J"

/-- From `ansi::up_n_lines_and_home`: `ESC[nF` when `n > 0`, else bare
move-to-column-start. -/
def up_n_lines_and_home (n : Nat) : String :=
  if n > 0 then "\x1b[" ++ Nat.repr n ++ "F" else MOVE_TO_START_OF_LINE

/-! ### Environment inputs (clock, tty detection, terminal size, `$TERM`) -/

structure Env where
  now : Nat
  atty_stdout : Bool := true
  atty_stderr : Bool := true
  term_dumb : Bool := false
  windows_ansi : Bool := true
  stdout_width : Option Nat := none
  stderr_width : Option Nat := none
deriving DecidableEq

/-! ### width.rs -/

inductive WidthStrategy where
  | Fixed (width : Nat)
  | Stdout
  | Stderr
deriving DecidableEq

/-- From `WidthStrategy::width`; the `Stdout`/`Stderr` variants query the
terminal, which is an environment input. -/
def WidthStrategy.width (ws : WidthStrategy) (env : Env) : Option Nat :=
  match ws with
  | WidthStrategy.Fixed w => some w
  | WidthStrategy.Stdout => env.stdout_width
  | WidthStrategy.Stderr => env.stderr_width

/-! ### Destination (lib.rs) -/

inductive Destination where
  | Stdout
  | Stderr
  | Capture
deriving DecidableEq

/-- From `is_dumb_term`: whether `$TERM` is (case-insensitively) `dumb`. -/
def is_dumb_term (env : Env) : Bool := env.term_dumb

/-- From `Destination::is_possible`. -/
def Destination.is_possible (d : Destination) (env : Env) : Bool :=
  match d with
  | Destination.Stdout => env.atty_stdout && !is_dumb_term env && env.windows_ansi
  | Destination.Stderr => env.atty_stderr && !is_dumb_term env && env.windows_ansi
  | Destination.Capture => true

/-- From `Destination::width_strategy`. -/
def Destination.width_strategy (d : Destination) : WidthStrategy :=
  match d with
  | Destination.Stdout => WidthStrategy.Stdout
  | Destination.Stderr => WidthStrategy.Stderr
  | Destination.Capture => WidthStrategy.Fixed 80

/-! ### Options (lib.rs) -/

structure Options where
  update_interval : Nat
  print_holdoff : Nat
  progress_enabled : Bool
  fake_clock : Bool
  destination : Destination
deriving DecidableEq

/-- From `Options::new` (100ms intervals, progress enabled, stdout). -/
def Options.new : Options :=
  { update_interval := 100
    print_holdoff := 100
    progress_enabled := true
    fake_clock := false
    destination := Destination.Stdout }

/-! ### State (lib.rs) -/

inductive State where
  /-- Progress is not visible and nothing was recently printed. -/
  | None
  /-- Progress bar is currently displayed. -/
  | ProgressDrawn (last_drawn_time : Nat) (cursor_y : Nat) (last_drawn_string : String)
  /-- Messages were written, and the progress bar is not visible. -/
  | Printed (last_printed : Nat)
  /-- An incomplete message line has been printed. -/
  | IncompleteLine
deriving DecidableEq

/-! ### Model trait (lib.rs) -/

/-- From the `Model` trait: `render` takes `&mut self` and a width and returns
a string, so it is embedded as `M → Nat → M × String`; likewise
`final_message`, whose default returns the empty string. -/
class Model (M : Type) where
  render : M → Nat → M × String
  final_message : M → M × String := fun m => (m, "")

/-! ### String helpers matching the byte-level operations in paint_progress -/

/-- `rendered.ends_with('\n')` then `rendered.pop()`: drop a single trailing
newline character if present. -/
def stripNl (s : String) : String :=
  if s.data.getLast? = some '\n' then String.mk s.data.dropLast else s

/-- `rendered.as_bytes().iter().filter(|b| **b == b'\n').count()`: in valid
UTF-8 the bytes equal to `0x0a` are exactly the characters `'\n'`. -/
def countNewlines (s : String) : Nat := s.data.count '\n'

/-! ### UTF-8 validation/decoding, for `std::str::from_utf8` in write -/

def utf8Cont (b : Nat) : Bool := 0x80 ≤ b && b < 0xC0

/-- Standard UTF-8 decoding of a byte sequence: returns the characters, or
`none` when the bytes are not valid UTF-8 (overlong forms, surrogates,
out-of-range code points and stray continuation bytes all rejected, as in
`std::str::from_utf8`). -/
def utf8Decode : List Nat → Option (List Char)
  | [] => some []
  | b :: rest =>
    if b < 0x80 then
      match utf8Decode rest with
      | some cs => some (Char.ofNat b :: cs)
      | none => none
    else if 0xC2 ≤ b && b ≤ 0xDF then
      match rest with
      | c1 :: rest1 =>
        if utf8Cont c1 then
          match utf8Decode rest1 with
          | some cs => some (Char.ofNat ((b - 0xC0) * 64 + (c1 - 0x80)) :: cs)
          | none => none
        else none
      | [] => none
    else if 0xE0 ≤ b && b ≤ 0xEF then
      match rest with
      | c1 :: c2 :: rest2 =>
        let lowOk : Bool :=
          if b = 0xE0 then 0xA0 ≤ c1 && c1 ≤ 0xBF
          else if b = 0xED then 0x80 ≤ c1 && c1 ≤ 0x9F
          else utf8Cont c1
        if lowOk && utf8Cont c2 then
          match utf8Decode rest2 with
          | some cs =>
            some (Char.ofNat ((b - 0xE0) * 4096 + (c1 - 0x80) * 64 + (c2 - 0x80)) :: cs)
          | none => none
        else none
      | _ => none
    else if 0xF0 ≤ b && b ≤ 0xF4 then
      match rest with
      | c1 :: c2 :: c3 :: rest3 =>
        let lowOk : Bool :=
          if b = 0xF0 then 0x90 ≤ c1 && c1 ≤ 0xBF
          else if b = 0xF4 then 0x80 ≤ c1 && c1 ≤ 0x8F
          else utf8Cont c1
        if lowOk && utf8Cont c2 && utf8Cont c3 then
          match utf8Decode rest3 with
          | some cs =>
            some (Char.ofNat
              ((b - 0xF0) * 262144 + (c1 - 0x80) * 4096 + (c2 - 0x80) * 64 + (c3 - 0x80)) :: cs)
          | none => none
        else none
      | _ => none
    else none

/-- `std::str::from_utf8`, returning the decoded string or `none` on invalid
UTF-8 (where the Rust code panics via `.expect`). -/
def from_utf8 (buf : List Nat) : Option String := (utf8Decode buf).map String.mk

/-! ### InnerView (lib.rs) -/

structure InnerView (M : Type) where
  /-- Current application model. -/
  model : M
  /-- True if the progress bar is suspended, and should not be drawn. -/
  suspended : Bool
  /-- Whether the progress bar is drawn, etc. -/
  state : State
  options : Options
  /-- How to determine the terminal width before output is rendered. -/
  width_strategy : WidthStrategy
  /-- The current time on the fake clock, if it is enabled. -/
  fake_clock : Nat
  /-- Everything passed to `write_output` (terminal stream or capture buffer). -/
  out : String
deriving DecidableEq

/-- From `InnerView::new` (`fake_clock` starts at `Instant::now()`). -/
def InnerView.new {M : Type} (model : M) (options : Options) (now : Nat) : InnerView M :=
  { model := model
    suspended := false
    state := State.None
    options := options
    width_strategy := options.destination.width_strategy
    fake_clock := now
    out := "" }

/-- From `View::new`: clear `progress_enabled` when the destination is not
possible, then build the inner view. -/
def viewNew {M : Type} (model : M) (options : Options) (env : Env) : InnerView M :=
  InnerView.new model
    (if !options.destination.is_possible env then
      { options with progress_enabled := false }
    else options) env.now

/-- From `InnerView::clock`: the fake clock when enabled, else the real one. -/
def InnerView.clock {M : Type} (v : InnerView M) (env : Env) : Nat :=
  if v.options.fake_clock then v.fake_clock else env.now

/-- From `InnerView::write_output`: all destinations append to the trace. -/
def InnerView.write_output {M : Type} (v : InnerView M) (buf : String) : InnerView M :=
  { v with out := v.out ++ buf }

/-- The early-return rate-limiting checks of `paint_progress` (the `match
self.state` block with the `print_holdoff` / `update_interval` comparisons;
`IncompleteLine` also returns early). -/
def tooSoon (st : State) (now : Nat) (o : Options) : Bool :=
  match st with
  | State.IncompleteLine => true
  | State.None => false
  | State.Printed last_printed => decide (now - last_printed < o.print_holdoff)
  | State.ProgressDrawn last_drawn_time _ _ =>
    decide (now - last_drawn_time < o.update_interval)

/-- The identical-output suppression check of `paint_progress`:
`*last_drawn_string == rendered` when a bar is drawn. -/
def sameAsDrawn (st : State) (rendered : String) : Bool :=
  match st with
  | State.ProgressDrawn _ _ last_drawn_string => last_drawn_string == rendered
  | _ => false

/-- The cursor-repositioning text pushed by `paint_progress` before the new
frame: `up_n_lines_and_home(cursor_y)` when a bar is drawn, nothing
otherwise. -/
def moveStr (st : State) : String :=
  match st with
  | State.ProgressDrawn _ cursor_y _ => up_n_lines_and_home cursor_y
  | _ => ""

/-- From `InnerView::paint_progress`. -/
def InnerView.paint_progress {M : Type} [Model M] (v : InnerView M) (env : Env) :
    InnerView M :=
  if !v.options.progress_enabled || v.suspended then v
  else if tooSoon v.state (v.clock env) v.options then v
  else
    match v.width_strategy.width env with
    | Option.none => v
    | Option.some w =>
      if sameAsDrawn v.state (stripNl (Model.render v.model w).2) then
        { v with model := (Model.render v.model w).1 }
      else
        { v with
          model := (Model.render v.model w).1
          out := v.out ++ (moveStr v.state ++ DISABLE_LINE_WRAP
            ++ CLEAR_TO_END_OF_SCREEN ++ stripNl (Model.render v.model w).2)
          state := State.ProgressDrawn (v.clock env)
            (countNewlines (stripNl (Model.render v.model w).2))
            (stripNl (Model.render v.model w).2) }

/-- From `InnerView::hide`. -/
def InnerView.hide {M : Type} (v : InnerView M) : InnerView M :=
  match v.state with
  | State.ProgressDrawn _ cursor_y _ =>
    { v with
      out := v.out ++ up_n_lines_and_home cursor_y ++ CLEAR_TO_END_OF_SCREEN
        ++ ENABLE_LINE_WRAP
      state := State.None }
  | _ => v

/-- From `InnerView::suspend`: set the flag, then hide. -/
def InnerView.suspend {M : Type} (v : InnerView M) : InnerView M :=
  InnerView.hide { v with suspended := true }

/-- From `InnerView::resume`: clear the flag, then attempt a paint. -/
def InnerView.resume {M : Type} [Model M] (v : InnerView M) (env : Env) : InnerView M :=
  InnerView.paint_progress { v with suspended := false } env

/-- From `InnerView::update`: run the callback on the model, then attempt a
paint, and return the callback's result. -/
def InnerView.update {M R : Type} [Model M] (v : InnerView M) (env : Env)
    (f : M → M × R) : InnerView M × R :=
  (InnerView.paint_progress { v with model := (f v.model).1 } env, (f v.model).2)

/-- The state a `write` leaves behind: `Printed` when the buffer ends with a
line-feed byte, else `IncompleteLine` (the `buf.ends_with(b"\n")` check in
`InnerView::write`). -/
def writtenState {M : Type} (v : InnerView M) (env : Env) (buf : List Nat) : State :=
  if buf.getLast? == some 10 then State.Printed (v.clock env)
  else State.IncompleteLine

/-- From `InnerView::write`: hide, set the new state from the final byte, then
decode the bytes as UTF-8 and emit them. `Except.error` carries the view as it
stands at the `.expect("message is not UTF-8")` panic. -/
def InnerView.write {M : Type} (v : InnerView M) (env : Env) (buf : List Nat) :
    Except (InnerView M) (InnerView M × Nat) :=
  if buf.isEmpty then Except.ok (v, 0)
  else
    match from_utf8 buf with
    | some s =>
      Except.ok (InnerView.write_output
        { v.hide with state := writtenState v.hide env buf } s, buf.length)
    | none => Except.error { v.hide with state := writtenState v.hide env buf }

/-- From `InnerView::abandon`: a bare newline when a bar is drawn, nothing
otherwise; state goes to `None` so that drop does not attempt to erase. -/
def InnerView.abandon {M : Type} (v : InnerView M) : InnerView M × M :=
  match v.state with
  | State.ProgressDrawn _ _ _ =>
    ({ v.write_output "\n" with state := State.None }, v.model)
  | _ => ({ v with state := State.None }, v.model)

/-- From `InnerView::finish`: hide, then print the final message if any. -/
def InnerView.finish {M : Type} [Model M] (v : InnerView M) : InnerView M × M :=
  if (Model.final_message v.hide.model).2 == "" then
    ({ v.hide with model := (Model.final_message v.hide.model).1 },
      (Model.final_message v.hide.model).1)
  else
    (InnerView.write_output
        { v.hide with model := (Model.final_message v.hide.model).1 }
        ((Model.final_message v.hide.model).2 ++ "\n"),
      (Model.final_message v.hide.model).1)

/-- From `InnerView::set_fake_clock`: asserts that the fake clock is enabled
(`none` models the assertion failure). -/
def InnerView.set_fake_clock {M : Type} (v : InnerView M) (t : Nat) :
    Option (InnerView M) :=
  if v.options.fake_clock then some { v with fake_clock := t } else none

/-! ### Concrete test scenarios -/

/-- Apply the same update callback `n` times in sequence. -/
def iterUpdate {M : Type} [Model M] (env : Env) (f : M → M × Unit) :
    Nat → InnerView M → InnerView M
  | 0, v => v
  | Nat.succ n, v => iterUpdate env f n (v.update env f).1

/-- The model of the `rate_limiting_with_fake_clock` scenario: `render`
increments `draw_count` and shows both counters. -/
structure C1Model where
  draw_count : Nat
  update_count : Nat
deriving DecidableEq

instance : Model C1Model where
  render m _w :=
    ({ m with draw_count := m.draw_count + 1 },
      "update:" ++ Nat.repr m.update_count ++ " draw:" ++ Nat.repr (m.draw_count + 1))

def c1Options : Options :=
  { update_interval := 1
    print_holdoff := 100
    progress_enabled := true
    fake_clock := true
    destination := Destination.Capture }

def c1Env : Env := { now := 0 }

def c1Inc : C1Model → C1Model × Unit :=
  fun m => ({ m with update_count := m.update_count + 1 }, ())

/-- Ten updates under a constant fake clock. -/
def c1Mid : InnerView C1Model :=
  iterUpdate c1Env c1Inc 10
    (viewNew { draw_count := 0, update_count := 0 } c1Options c1Env)

/-- Advance the fake clock by one second, then ten more updates. -/
def c1Final : InnerView C1Model :=
  iterUpdate c1Env c1Inc 10 ((c1Mid.set_fake_clock 1000).getD c1Mid)

/-- The model of the Capture scenario: renders `count: {i}`. -/
structure CountModel where
  i : Nat
deriving DecidableEq

instance : Model CountModel where
  render m _w := (m, "count: " ++ Nat.repr m.i)

def c3Options : Options :=
  { update_interval := 0
    print_holdoff := 0
    progress_enabled := true
    fake_clock := false
    destination := Destination.Capture }

def c3Env : Env := { now := 0 }

/-- Three sequential updates setting `i` to 0, 1, 2 on a Capture view. -/
def c3Run : InnerView CountModel :=
  let v0 : InnerView CountModel := viewNew { i := 0 } c3Options c3Env
  let v1 := (v0.update c3Env (fun _ => (⟨0⟩, ()))).1
  let v2 := (v1.update c3Env (fun _ => (⟨1⟩, ()))).1
  (v2.update c3Env (fun _ => (⟨2⟩, ()))).1

/-- The buffer that claim C3 says the scenario produces: three sequences of
the form move-to-start · disable-wrap · clear-to-end-of-screen · text ·
enable-wrap, the second and third prefixed with an explicit up-0-lines
sequence instead of the bare move-to-start. -/
def c3Claimed : String :=
  (MOVE_TO_START_OF_LINE ++ DISABLE_LINE_WRAP ++ CLEAR_TO_END_OF_SCREEN
      ++ "count: 0" ++ ENABLE_LINE_WRAP)
    ++ ("\x1b[0F" ++ DISABLE_LINE_WRAP ++ CLEAR_TO_END_OF_SCREEN
      ++ "count: 1" ++ ENABLE_LINE_WRAP)
    ++ ("\x1b[0F" ++ DISABLE_LINE_WRAP ++ CLEAR_TO_END_OF_SCREEN
      ++ "count: 2" ++ ENABLE_LINE_WRAP)

/-- The buffer the code actually produces in that scenario. -/
def c3Actual : String :=
  (DISABLE_LINE_WRAP ++ CLEAR_TO_END_OF_SCREEN ++ "count: 0")
    ++ (MOVE_TO_START_OF_LINE ++ DISABLE_LINE_WRAP ++ CLEAR_TO_END_OF_SCREEN
      ++ "count: 1")
    ++ (MOVE_TO_START_OF_LINE ++ DISABLE_LINE_WRAP ++ CLEAR_TO_END_OF_SCREEN
      ++ "count: 2")

/-- Extract the view carried by a `write` result, whether it returned normally
or panicked. -/
def writeView {M : Type} : Except (InnerView M) (InnerView M × Nat) → InnerView M
  | Except.ok p => p.1
  | Except.error v => v

/-- The cursor-offset invariant of the `ProgressDrawn` state: `cursor_y`
equals the number of newline bytes in `last_drawn_string`. -/
def cursorInv (st : State) : Bool :=
  match st with
  | State.ProgressDrawn _ cursor_y last_drawn_string =>
    cursor_y == countNewlines last_drawn_string
  | _ => true

/-- A view with a bar currently drawn, for witnesses. -/
def pView : InnerView CountModel :=
  { model := { i := 5 }
    suspended := false
    state := State.ProgressDrawn 0 0 "count: 4"
    options := c3Options
    width_strategy := WidthStrategy.Fixed 80
    fake_clock := 0
    out := "P" }

/-- A view whose drawn text equals what the model renders, for witnesses. -/
def c2View : InnerView CountModel :=
  { pView with state := State.ProgressDrawn 0 0 "count: 5" }

/-- A view after an unterminated write, for witnesses. -/
def incView : InnerView CountModel :=
  { pView with state := State.IncompleteLine }

/-- A suspended view, for witnesses. -/
def suspView : InnerView CountModel :=
  { pView with suspended := true, state := State.None }

/-- Options for the View-construction counterexample: progress explicitly
enabled, destination stdout. -/
def c8Options : Options := Options.new

/-- Environment where stdout is not a tty. -/
def c8Env : Env := { now := 0, atty_stdout := false }

/-- A view constructed against the non-tty environment. -/
def c8View : InnerView CountModel := viewNew { i := 0 } c8Options c8Env

/-- A freshly constructed Capture view, for witnesses. -/
def c3Fresh : InnerView CountModel := viewNew { i := 0 } c3Options c3Env

/-- A simple update callback on the counting model, for witnesses. -/
def incG : CountModel → CountModel × Unit := fun m => ({ i := m.i + 1 }, ())

/-! ### Helper lemmas -/

theorem hide_of_drawn {M : Type} (v : InnerView M) (t cy : Nat) (lds : String)
    (h : v.state = State.ProgressDrawn t cy lds) :
    v.hide = { v with
      out := v.out ++ (up_n_lines_and_home cy ++ CLEAR_TO_END_OF_SCREEN
        ++ ENABLE_LINE_WRAP)
      state := State.None } := by
  unfold InnerView.hide
  rw [h]
  simp [String.append_assoc]

theorem hide_of_not_drawn {M : Type} (v : InnerView M)
    (h : ∀ t cy lds, v.state ≠ State.ProgressDrawn t cy lds) :
    v.hide = v := by
  unfold InnerView.hide
  split
  · rename_i t cy lds heq
    exact absurd heq (h t cy lds)
  · rfl

theorem paint_disabled {M : Type} [Model M] (v : InnerView M) (env : Env)
    (h : v.options.progress_enabled = false) : v.paint_progress env = v := by
  unfold InnerView.paint_progress
  simp [h]

theorem paint_suspended {M : Type} [Model M] (v : InnerView M) (env : Env)
    (h : v.suspended = true) : v.paint_progress env = v := by
  unfold InnerView.paint_progress
  simp [h]

theorem paint_incomplete {M : Type} [Model M] (v : InnerView M) (env : Env)
    (h : v.state = State.IncompleteLine) : v.paint_progress env = v := by
  unfold InnerView.paint_progress
  rw [h]
  simp [tooSoon]

theorem paint_drawn_too_soon {M : Type} [Model M] (v : InnerView M) (env : Env)
    (t cy : Nat) (lds : String) (h : v.state = State.ProgressDrawn t cy lds)
    (hlt : v.clock env - t < v.options.update_interval) :
    v.paint_progress env = v := by
  unfold InnerView.paint_progress
  rw [h]
  simp [tooSoon, hlt]

theorem paint_printed_too_soon {M : Type} [Model M] (v : InnerView M) (env : Env)
    (lp : Nat) (h : v.state = State.Printed lp)
    (hlt : v.clock env - lp < v.options.print_holdoff) :
    v.paint_progress env = v := by
  unfold InnerView.paint_progress
  rw [h]
  simp [tooSoon, hlt]

theorem paint_no_width {M : Type} [Model M] (v : InnerView M) (env : Env)
    (h : v.width_strategy.width env = Option.none) : v.paint_progress env = v := by
  unfold InnerView.paint_progress
  rw [h]
  simp

theorem paint_from_none {M : Type} [Model M] (v : InnerView M) (env : Env) (w : Nat)
    (h : v.state = State.None) (he : v.options.progress_enabled = true)
    (hs : v.suspended = false) (hw : v.width_strategy.width env = some w) :
    v.paint_progress env = { v with
      model := (Model.render v.model w).1
      out := v.out ++ (DISABLE_LINE_WRAP ++ CLEAR_TO_END_OF_SCREEN
        ++ stripNl (Model.render v.model w).2)
      state := State.ProgressDrawn (v.clock env)
        (countNewlines (stripNl (Model.render v.model w).2))
        (stripNl (Model.render v.model w).2) } := by
  unfold InnerView.paint_progress
  rw [h, hw]
  simp [he, hs, tooSoon, sameAsDrawn, moveStr, String.append_assoc,
    String.empty_append]

theorem paint_from_drawn_differs {M : Type} [Model M] (v : InnerView M) (env : Env)
    (w t cy : Nat) (lds : String) (h : v.state = State.ProgressDrawn t cy lds)
    (he : v.options.progress_enabled = true) (hs : v.suspended = false)
    (hge : ¬ v.clock env - t < v.options.update_interval)
    (hw : v.width_strategy.width env = some w)
    (hne : stripNl (Model.render v.model w).2 ≠ lds) :
    v.paint_progress env = { v with
      model := (Model.render v.model w).1
      out := v.out ++ (up_n_lines_and_home cy ++ (DISABLE_LINE_WRAP
        ++ CLEAR_TO_END_OF_SCREEN ++ stripNl (Model.render v.model w).2))
      state := State.ProgressDrawn (v.clock env)
        (countNewlines (stripNl (Model.render v.model w).2))
        (stripNl (Model.render v.model w).2) } := by
  unfold InnerView.paint_progress
  rw [h, hw]
  simp [he, hs, hge, Ne.symm hne, tooSoon, sameAsDrawn, moveStr,
    String.append_assoc]

theorem paint_suppressed_eq {M : Type} [Model M] (v : InnerView M) (env : Env)
    (w t cy : Nat) (lds : String) (h : v.state = State.ProgressDrawn t cy lds)
    (hw : v.width_strategy.width env = some w)
    (heq : stripNl (Model.render v.model w).2 = lds) :
    (v.paint_progress env).out = v.out ∧ (v.paint_progress env).state = v.state := by
  unfold InnerView.paint_progress
  rw [h, hw]
  simp [sameAsDrawn, heq]
  repeat' split
  all_goals first
  | exact ⟨rfl, h⟩
  | exact ⟨rfl, rfl⟩

theorem paint_options {M : Type} [Model M] (v : InnerView M) (env : Env) :
    (v.paint_progress env).options = v.options
      ∧ (v.paint_progress env).width_strategy = v.width_strategy
      ∧ (v.paint_progress env).suspended = v.suspended := by
  unfold InnerView.paint_progress
  repeat' split
  all_goals exact ⟨rfl, rfl, rfl⟩

theorem paint_drawn_out_cases {M : Type} [Model M] (v : InnerView M) (env : Env)
    (t cy : Nat) (lds : String) (h : v.state = State.ProgressDrawn t cy lds) :
    (v.paint_progress env).out = v.out
      ∨ ∃ r, (v.paint_progress env).out
        = v.out ++ (up_n_lines_and_home cy
          ++ (DISABLE_LINE_WRAP ++ CLEAR_TO_END_OF_SCREEN ++ r)) := by
  unfold InnerView.paint_progress
  rw [h]
  split
  · exact Or.inl rfl
  · split
    · exact Or.inl rfl
    · split
      · exact Or.inl rfl
      · rename_i w hw
        split
        · exact Or.inl rfl
        · refine Or.inr ⟨stripNl (Model.render v.model w).2, ?_⟩
          simp [moveStr, String.append_assoc]

theorem clock_hide {M : Type} (v : InnerView M) (env : Env) :
    v.hide.clock env = v.clock env := by
  unfold InnerView.hide
  split
  · rfl
  · rfl

theorem write_empty {M : Type} (v : InnerView M) (env : Env) :
    v.write env [] = Except.ok (v, 0) := rfl

theorem hide_options {M : Type} (v : InnerView M) :
    v.hide.options = v.options ∧ v.hide.suspended = v.suspended
      ∧ v.hide.width_strategy = v.width_strategy ∧ v.hide.model = v.model := by
  unfold InnerView.hide
  split
  · exact ⟨rfl, rfl, rfl, rfl⟩
  · exact ⟨rfl, rfl, rfl, rfl⟩

theorem write_unterminated_state {M : Type} (v : InnerView M) (env : Env)
    (buf : List Nat) (h1 : buf ≠ []) (h2 : buf.getLast? ≠ some 10) :
    (writeView (v.write env buf)).state = State.IncompleteLine := by
  unfold InnerView.write writtenState
  rw [if_neg (by simp [h1])]
  rw [show (buf.getLast? == some 10) = false by simp [h2]]
  split
  · rfl
  · rfl

theorem write_terminated {M : Type} (v : InnerView M) (env : Env)
    (buf : List Nat) (s : String) (h1 : buf.getLast? = some 10)
    (h2 : from_utf8 buf = some s) :
    v.write env buf = Except.ok
      (InnerView.write_output { v.hide with state := State.Printed (v.clock env) } s,
        buf.length) := by
  have hne : buf ≠ [] := by
    intro he
    rw [he] at h1
    cases h1
  unfold InnerView.write writtenState
  rw [if_neg (by simp [hne])]
  rw [show (buf.getLast? == some 10) = true by simp [h1]]
  rw [h2, clock_hide]
  rfl

theorem write_invalid {M : Type} (v : InnerView M) (env : Env)
    (buf : List Nat) (h1 : buf ≠ []) (h2 : from_utf8 buf = none) :
    v.write env buf = Except.error { v.hide with state :=
        if (buf.getLast? == some 10) then State.Printed (v.clock env)
        else State.IncompleteLine } := by
  unfold InnerView.write writtenState
  rw [if_neg (by simp [h1])]
  rw [h2, clock_hide]

theorem write_options {M : Type} (v : InnerView M) (env : Env) (buf : List Nat) :
    (writeView (v.write env buf)).options = v.options := by
  unfold InnerView.write
  split
  · rfl
  · split
    · exact (hide_options v).1
    · exact (hide_options v).1

theorem update_incomplete {M R : Type} [Model M] (v : InnerView M) (env : Env)
    (f : M → M × R) (h : v.state = State.IncompleteLine) :
    v.update env f = ({ v with model := (f v.model).1 }, (f v.model).2) := by
  unfold InnerView.update
  rw [paint_incomplete { v with model := (f v.model).1 } env h]

theorem update_suspended {M R : Type} [Model M] (v : InnerView M) (env : Env)
    (f : M → M × R) (h : v.suspended = true) :
    v.update env f = ({ v with model := (f v.model).1 }, (f v.model).2) := by
  unfold InnerView.update
  rw [paint_suspended { v with model := (f v.model).1 } env h]

theorem iter_incomplete {M : Type} [Model M] (env : Env) (g : M → M × Unit)
    (n : Nat) (v : InnerView M) (h : v.state = State.IncompleteLine) :
    (iterUpdate env g n v).state = State.IncompleteLine
      ∧ (iterUpdate env g n v).out = v.out := by
  induction n generalizing v with
  | zero => exact ⟨h, rfl⟩
  | succ n ih =>
    show (iterUpdate env g n (v.update env g).1).state = State.IncompleteLine
      ∧ (iterUpdate env g n (v.update env g).1).out = v.out
    rw [update_incomplete v env g h]
    exact ih { v with model := (g v.model).1 } h

theorem cursorInv_hide {M : Type} (v : InnerView M) :
    cursorInv v.hide.state = true := by
  unfold InnerView.hide
  split
  · rfl
  · rename_i hne
    unfold cursorInv
    split
    · rename_i t cy lds heq
      exact absurd heq (hne t cy lds)
    · rfl

theorem cursorInv_paint {M : Type} [Model M] (v : InnerView M) (env : Env)
    (h : cursorInv v.state = true) :
    cursorInv (v.paint_progress env).state = true := by
  unfold InnerView.paint_progress
  repeat' split
  all_goals first
  | exact h
  | simp [cursorInv]

theorem cursorInv_writtenState {M : Type} (v : InnerView M) (env : Env)
    (buf : List Nat) : cursorInv (writtenState v env buf) = true := by
  unfold writtenState
  split
  · rfl
  · rfl

theorem cursorInv_write {M : Type} (v : InnerView M) (env : Env)
    (buf : List Nat) (hv : cursorInv v.state = true) :
    cursorInv (writeView (v.write env buf)).state = true := by
  unfold InnerView.write
  split
  · exact hv
  · split
    · exact cursorInv_writtenState v.hide env buf
    · exact cursorInv_writtenState v.hide env buf

theorem cursorInv_abandon {M : Type} (v : InnerView M) :
    cursorInv (v.abandon).1.state = true := by
  unfold InnerView.abandon
  split
  · rfl
  · rfl

theorem cursorInv_finish {M : Type} [Model M] (v : InnerView M) :
    cursorInv (v.finish).1.state = true := by
  unfold InnerView.finish
  split
  · exact cursorInv_hide v
  · exact cursorInv_hide v

theorem cursorInv_drawn_eq {M : Type} (v : InnerView M) (t cy : Nat)
    (lds : String) (h : v.state = State.ProgressDrawn t cy lds)
    (hv : cursorInv v.state = true) : cy = countNewlines lds := by
  rw [h] at hv
  simp [cursorInv] at hv
  exact hv

/-! ### Claim theorems -/

/-- Claim C1: rate limiting affects only the display, never the model. Every
`update` applies the callback's mutation to the model and returns the
callback's value, handing the display side to `paint_progress`;
`paint_progress` is a no-op when the state is `ProgressDrawn` and less than
`update_interval` has passed since `last_drawn_time`, or the state is
`Printed` and less than `print_holdoff` has passed since `last_printed`. In
the fake-clock scenario (`update_interval` 1ms, constant clock), 10 updates
invoke `render` exactly once; after advancing the clock one second, 10 more
invoke it exactly once more, while the model's update counter shows all 20
updates. -/
theorem C1_rate_limiting_display_only {M R : Type} [Model M] (v : InnerView M)
    (env : Env) (f : M → M × R) :
    (v.update env f
        = (InnerView.paint_progress { v with model := (f v.model).1 } env,
          (f v.model).2))
    ∧ (∀ t cy lds, v.state = State.ProgressDrawn t cy lds →
        v.clock env - t < v.options.update_interval → v.paint_progress env = v)
    ∧ (∀ lp, v.state = State.Printed lp →
        v.clock env - lp < v.options.print_holdoff → v.paint_progress env = v)
    ∧ (c1Mid.model.draw_count = 1 ∧ c1Mid.model.update_count = 10
        ∧ c1Final.model.draw_count = 2 ∧ c1Final.model.update_count = 20) := by
  refine ⟨rfl, ?_, ?_, by decide⟩
  · intro t cy lds h hlt
    exact paint_drawn_too_soon v env t cy lds h hlt
  · intro lp h hlt
    exact paint_printed_too_soon v env lp h hlt

/-- Witness for C1 at the concrete fake-clock scenario view. -/
theorem C1_rate_limiting_display_only_witness :
    c1Mid.state = State.ProgressDrawn 0 0 "update:1 draw:1"
    ∧ c1Mid.clock c1Env - 0 < c1Mid.options.update_interval
    ∧ c1Mid.paint_progress c1Env = c1Mid
    ∧ c1Final.model.draw_count = 2 ∧ c1Final.model.update_count = 20 := by
  refine ⟨by decide, by decide, ?_, ?_, ?_⟩
  · exact (@C1_rate_limiting_display_only C1Model Unit _ c1Mid c1Env c1Inc).2.1
      0 0 "update:1 draw:1" (by decide) (by decide)
  · exact (@C1_rate_limiting_display_only C1Model Unit _ c1Mid c1Env c1Inc).2.2.2.2.2.1
  · exact (@C1_rate_limiting_display_only C1Model Unit _ c1Mid c1Env c1Inc).2.2.2.2.2.2

/-- Claim C2: identical-render suppression. If the state is `ProgressDrawn`
and the freshly rendered text, after trailing-newline stripping, equals the
stored `last_drawn_string`, then `paint_progress` emits no bytes and leaves
the display state unchanged — with no constraint on elapsed time, hence in
particular when more than `update_interval` has elapsed. -/
theorem C2_identical_render_suppressed {M : Type} [Model M] (v : InnerView M)
    (env : Env) (w t cy : Nat) (lds : String)
    (h : v.state = State.ProgressDrawn t cy lds)
    (hw : v.width_strategy.width env = some w)
    (heq : stripNl (Model.render v.model w).2 = lds) :
    (v.paint_progress env).out = v.out
      ∧ (v.paint_progress env).state = v.state :=
  paint_suppressed_eq v env w t cy lds h hw heq

/-- Witness for C2: a drawn view whose model renders the drawn text again,
with `update_interval = 0` so the rate-limit window has certainly elapsed. -/
theorem C2_identical_render_suppressed_witness :
    c2View.state = State.ProgressDrawn 0 0 "count: 5"
    ∧ c2View.width_strategy.width c3Env = some 80
    ∧ stripNl (Model.render c2View.model 80).2 = "count: 5"
    ∧ c2View.options.update_interval ≤ c2View.clock c3Env - 0
    ∧ (c2View.paint_progress c3Env).out = c2View.out
    ∧ (c2View.paint_progress c3Env).state = c2View.state := by
  refine ⟨by decide, by decide, by decide, by decide, ?_⟩
  exact C2_identical_render_suppressed c2View c3Env 80 0 0 "count: 5"
    (by decide) (by decide) (by decide)

/-- Claim C3 as stated is false: in the Capture scenario (three updates
setting i to 0, 1, 2 with zero intervals) the captured buffer is not three
sequences of the claimed shape — the first paint has no cursor-repositioning
prefix at all, no paint emits enable-line-wrap, and repaints use the bare
move-to-start rather than an up-0-lines sequence. -/
theorem C3_counterexample : c3Run.out ≠ c3Claimed ∧ c3Run.out = c3Actual := by
  exact ⟨by decide, by decide⟩

/-- Claim C3 amended: a first paint (from the `None` state) emits
disable-line-wrap, clear-to-end-of-screen and the rendered text, with no
cursor-repositioning prefix and no enable-line-wrap; a repaint prefixes
`up_n_lines_and_home cursor_y`, which for 0 is the bare move-to-start
(`ESC[1G`), not an up-0-lines sequence; in the concrete Capture scenario the
captured buffer is exactly `c3Actual`. -/
theorem C3_paint_byte_sequence {M : Type} [Model M] (v : InnerView M)
    (env : Env) (w : Nat) :
    (v.state = State.None → v.options.progress_enabled = true →
      v.suspended = false → v.width_strategy.width env = some w →
      (v.paint_progress env).out = v.out ++ (DISABLE_LINE_WRAP
        ++ CLEAR_TO_END_OF_SCREEN ++ stripNl (Model.render v.model w).2))
    ∧ (∀ t cy lds, v.state = State.ProgressDrawn t cy lds →
        v.options.progress_enabled = true → v.suspended = false →
        ¬ v.clock env - t < v.options.update_interval →
        v.width_strategy.width env = some w →
        stripNl (Model.render v.model w).2 ≠ lds →
        (v.paint_progress env).out = v.out ++ (up_n_lines_and_home cy
          ++ (DISABLE_LINE_WRAP ++ CLEAR_TO_END_OF_SCREEN
            ++ stripNl (Model.render v.model w).2)))
    ∧ up_n_lines_and_home 0 = MOVE_TO_START_OF_LINE
    ∧ c3Run.out = c3Actual := by
  refine ⟨?_, ?_, rfl, by decide⟩
  · intro h he hs hw
    rw [paint_from_none v env w h he hs hw]
  · intro t cy lds h he hs hge hw hne
    rw [paint_from_drawn_differs v env w t cy lds h he hs hge hw hne]

/-- Witness for C3 amended: a fresh Capture view paints without a prefix, and
the drawn view `pView` repaints with the move prefix. -/
theorem C3_paint_byte_sequence_witness :
    c3Fresh.state = State.None
    ∧ (c3Fresh.paint_progress c3Env).out = c3Fresh.out ++ (DISABLE_LINE_WRAP
        ++ CLEAR_TO_END_OF_SCREEN ++ stripNl (Model.render c3Fresh.model 80).2)
    ∧ pView.state = State.ProgressDrawn 0 0 "count: 4"
    ∧ stripNl (Model.render pView.model 80).2 ≠ "count: 4"
    ∧ (pView.paint_progress c3Env).out = pView.out ++ (up_n_lines_and_home 0
        ++ (DISABLE_LINE_WRAP ++ CLEAR_TO_END_OF_SCREEN
          ++ stripNl (Model.render pView.model 80).2)) := by
  refine ⟨by decide, ?_, by decide, by decide, ?_⟩
  · exact (C3_paint_byte_sequence c3Fresh c3Env 80).1 (by decide) (by decide)
      (by decide) (by decide)
  · exact (C3_paint_byte_sequence pView c3Env 80).2.1 0 0 "count: 4" (by decide)
      (by decide) (by decide) (by decide) (by decide) (by decide)

/-- Claim C4: whenever the state is `ProgressDrawn`, `cursor_y` equals the
number of line-feed bytes in `last_drawn_string` — the invariant `cursorInv`
is preserved by every operation — and the next repaint or clear emits a
cursor-repositioning prefix `up_n_lines_and_home` whose count is exactly that
number (for repositioning, `up_n_lines_and_home N` is `ESC[NF` for `N > 0`
and the move-up-zero bare column start for `N = 0`). -/
theorem C4_cursor_offset_invariant {M : Type} [Model M] (v : InnerView M)
    (env : Env) (buf : List Nat) (f : M → M × Unit)
    (hv : cursorInv v.state = true) :
    cursorInv (v.paint_progress env).state = true
    ∧ cursorInv v.hide.state = true
    ∧ cursorInv v.suspend.state = true
    ∧ cursorInv (v.resume env).state = true
    ∧ cursorInv (v.update env f).1.state = true
    ∧ cursorInv (writeView (v.write env buf)).state = true
    ∧ cursorInv (v.abandon).1.state = true
    ∧ cursorInv (v.finish).1.state = true
    ∧ (∀ t cy lds, v.state = State.ProgressDrawn t cy lds →
        cy = countNewlines lds
        ∧ v.hide.out = v.out ++ (up_n_lines_and_home (countNewlines lds)
            ++ CLEAR_TO_END_OF_SCREEN ++ ENABLE_LINE_WRAP)
        ∧ ((v.paint_progress env).out = v.out
          ∨ ∃ r, (v.paint_progress env).out = v.out
              ++ (up_n_lines_and_home (countNewlines lds)
                ++ (DISABLE_LINE_WRAP ++ CLEAR_TO_END_OF_SCREEN ++ r)))) := by
  refine ⟨cursorInv_paint v env hv, cursorInv_hide v,
    cursorInv_hide { v with suspended := true },
    cursorInv_paint { v with suspended := false } env hv,
    cursorInv_paint { v with model := (f v.model).1 } env hv,
    cursorInv_write v env buf hv, cursorInv_abandon v, cursorInv_finish v, ?_⟩
  intro t cy lds h
  have hcy := cursorInv_drawn_eq v t cy lds h hv
  refine ⟨hcy, ?_, ?_⟩
  · rw [← hcy, hide_of_drawn v t cy lds h]
  · rw [← hcy]
    exact paint_drawn_out_cases v env t cy lds h

/-- Witness for C4 at the drawn view `pView`. -/
theorem C4_cursor_offset_invariant_witness :
    cursorInv pView.state = true
    ∧ pView.state = State.ProgressDrawn 0 0 "count: 4"
    ∧ (0 = countNewlines "count: 4"
        ∧ pView.hide.out = pView.out ++ (up_n_lines_and_home
            (countNewlines "count: 4") ++ CLEAR_TO_END_OF_SCREEN
            ++ ENABLE_LINE_WRAP)
        ∧ ((pView.paint_progress c3Env).out = pView.out
          ∨ ∃ r, (pView.paint_progress c3Env).out = pView.out
              ++ (up_n_lines_and_home (countNewlines "count: 4")
                ++ (DISABLE_LINE_WRAP ++ CLEAR_TO_END_OF_SCREEN ++ r)))) := by
  refine ⟨by decide, by decide, ?_⟩
  exact (C4_cursor_offset_invariant pView c3Env [104] incG (by decide)).2.2.2.2.2.2.2.2
    0 0 "count: 4" (by decide)

/-- Claim C5: after a write whose bytes do not end in a line terminator the
state is `IncompleteLine`; in that state `paint_progress` is the identity (no
bytes, no render), and any sequence of updates mutates only the model,
leaving the output untouched and the state `IncompleteLine`, until a write
whose bytes end in a line terminator moves the state to `Printed`. -/
theorem C5_incomplete_line_blocks_paint {M R : Type} [Model M]
    (v : InnerView M) (env : Env) (buf buf2 : List Nat) (s : String)
    (f : M → M × R) (g : M → M × Unit) (n : Nat) :
    (buf ≠ [] → buf.getLast? ≠ some 10 →
      (writeView (v.write env buf)).state = State.IncompleteLine)
    ∧ (v.state = State.IncompleteLine → v.paint_progress env = v)
    ∧ (v.state = State.IncompleteLine →
        v.update env f = ({ v with model := (f v.model).1 }, (f v.model).2))
    ∧ (v.state = State.IncompleteLine →
        (iterUpdate env g n v).state = State.IncompleteLine
          ∧ (iterUpdate env g n v).out = v.out)
    ∧ (buf2.getLast? = some 10 → from_utf8 buf2 = some s →
        v.write env buf2 = Except.ok
          (InnerView.write_output
              { v.hide with state := State.Printed (v.clock env) } s,
            buf2.length)) := by
  refine ⟨write_unterminated_state v env buf, paint_incomplete v env,
    update_incomplete v env f, iter_incomplete env g n v,
    write_terminated v env buf2 s⟩

/-- Witness for C5 at the incomplete-line view `incView`. -/
theorem C5_incomplete_line_blocks_paint_witness :
    incView.state = State.IncompleteLine
    ∧ (writeView (incView.write c3Env [104])).state = State.IncompleteLine
    ∧ incView.paint_progress c3Env = incView
    ∧ (iterUpdate c3Env incG 3 incView).state = State.IncompleteLine
    ∧ (iterUpdate c3Env incG 3 incView).out = incView.out
    ∧ incView.write c3Env [104, 10] = Except.ok
        (InnerView.write_output
            { incView.hide with state := State.Printed (incView.clock c3Env) }
            "h\n",
          2) := by
  have hmain := @C5_incomplete_line_blocks_paint CountModel Unit _ incView
    c3Env [104] [104, 10] "h\n" incG incG 3
  exact ⟨by decide, hmain.1 (by decide) (by decide), hmain.2.1 (by decide),
    (hmain.2.2.2.1 (by decide)).1, (hmain.2.2.2.1 (by decide)).2,
    hmain.2.2.2.2 (by decide) (by decide)⟩

/-- Claim C6: when a bar is drawn, `abandon` appends exactly one newline byte
(no clear-to-end-of-screen, no cursor movement — prior output untouched),
resets the state to `None` so a later erase attempt does nothing, and returns
the model; in every other state it emits nothing and returns the model. -/
theorem C6_abandon_leaves_content {M : Type} (v : InnerView M) :
    (∀ t cy lds, v.state = State.ProgressDrawn t cy lds →
      v.abandon = ({ v with out := v.out ++ "\n", state := State.None },
        v.model))
    ∧ ((∀ t cy lds, v.state ≠ State.ProgressDrawn t cy lds) →
        v.abandon = ({ v with state := State.None }, v.model))
    ∧ InnerView.hide (v.abandon).1 = (v.abandon).1 := by
  refine ⟨?_, ?_, ?_⟩
  · intro t cy lds h
    unfold InnerView.abandon
    rw [h]
    rfl
  · intro h
    unfold InnerView.abandon
    split
    · rename_i t cy lds heq
      exact absurd heq (h t cy lds)
    · rfl
  · apply hide_of_not_drawn
    intro t cy lds
    unfold InnerView.abandon
    split
    · simp
    · simp

/-- Witness for C6 at the drawn view `pView`. -/
theorem C6_abandon_leaves_content_witness :
    pView.state = State.ProgressDrawn 0 0 "count: 4"
    ∧ pView.abandon
      = ({ pView with out := pView.out ++ "\n", state := State.None },
        pView.model)
    ∧ InnerView.hide (pView.abandon).1 = (pView.abandon).1 := by
  exact ⟨by decide, (C6_abandon_leaves_content pView).1 0 0 "count: 4"
    (by decide), (C6_abandon_leaves_content pView).2.2⟩

/-- Claim C7: `suspend` sets the suspended flag and, when a bar is drawn,
emits exactly one clear sequence; every `update` while suspended mutates the
model and emits nothing; `resume` clears the flag and immediately paints once
with the latest model state, without waiting for the next update. -/
theorem C7_suspend_resume {M R : Type} [Model M] (v : InnerView M) (env : Env)
    (f : M → M × R) (w : Nat) :
    v.suspend.suspended = true
    ∧ (∀ t cy lds, v.state = State.ProgressDrawn t cy lds →
        v.suspend = { v with
          suspended := true
          out := v.out ++ (up_n_lines_and_home cy ++ CLEAR_TO_END_OF_SCREEN
            ++ ENABLE_LINE_WRAP)
          state := State.None })
    ∧ ((∀ t cy lds, v.state ≠ State.ProgressDrawn t cy lds) →
        v.suspend = { v with suspended := true })
    ∧ (v.suspended = true →
        v.update env f = ({ v with model := (f v.model).1 }, (f v.model).2))
    ∧ (v.state = State.None → v.options.progress_enabled = true →
        v.width_strategy.width env = some w →
        v.resume env = { v with
          suspended := false
          model := (Model.render v.model w).1
          out := v.out ++ (DISABLE_LINE_WRAP ++ CLEAR_TO_END_OF_SCREEN
            ++ stripNl (Model.render v.model w).2)
          state := State.ProgressDrawn (v.clock env)
            (countNewlines (stripNl (Model.render v.model w).2))
            (stripNl (Model.render v.model w).2) }) := by
  refine ⟨?_, ?_, ?_, update_suspended v env f, ?_⟩
  · show (InnerView.hide { v with suspended := true }).suspended = true
    exact (hide_options { v with suspended := true }).2.1
  · intro t cy lds h
    show InnerView.hide { v with suspended := true } = _
    rw [hide_of_drawn { v with suspended := true } t cy lds h]
  · intro h
    show InnerView.hide { v with suspended := true } = _
    rw [hide_of_not_drawn { v with suspended := true } h]
  · intro h he hw
    show InnerView.paint_progress { v with suspended := false } env = _
    rw [paint_from_none { v with suspended := false } env w h he rfl hw]
    rfl

/-- Witness for C7: the drawn view `pView` and the suspended view
`suspView`. -/
theorem C7_suspend_resume_witness :
    pView.state = State.ProgressDrawn 0 0 "count: 4"
    ∧ pView.suspend = { pView with
        suspended := true
        out := pView.out ++ (up_n_lines_and_home 0 ++ CLEAR_TO_END_OF_SCREEN
          ++ ENABLE_LINE_WRAP)
        state := State.None }
    ∧ suspView.suspended = true
    ∧ suspView.update c3Env incG
        = ({ suspView with model := (incG suspView.model).1 },
          (incG suspView.model).2)
    ∧ suspView.resume c3Env = { suspView with
        suspended := false
        model := (Model.render suspView.model 80).1
        out := suspView.out ++ (DISABLE_LINE_WRAP ++ CLEAR_TO_END_OF_SCREEN
          ++ stripNl (Model.render suspView.model 80).2)
        state := State.ProgressDrawn (suspView.clock c3Env)
          (countNewlines (stripNl (Model.render suspView.model 80).2))
          (stripNl (Model.render suspView.model 80).2) } := by
  refine ⟨by decide, ?_, by decide, ?_, ?_⟩
  · exact (@C7_suspend_resume CountModel Unit _ pView c3Env incG 80).2.1
      0 0 "count: 4" (by decide)
  · exact (@C7_suspend_resume CountModel Unit _ suspView c3Env incG 80).2.2.2.1
      (by decide)
  · exact (@C7_suspend_resume CountModel Unit _ suspView c3Env incG 80).2.2.2.2
      (by decide) (by decide) (by decide)

/-- Claim C8 as stated is false: the destination-viability probe does not
happen on the first `paint_progress` or `write` call — `View::new` performs it
at construction. With progress enabled in the options but stdout not a tty,
the freshly constructed view already has `progress_enabled = false` and sits
in the ordinary `None` state (there is no `Fresh` state), before any
`paint_progress` or `write` call has occurred. -/
theorem C8_counterexample :
    c8Options.progress_enabled = true
    ∧ c8View.options.progress_enabled = false
    ∧ c8View.state = State.None := by
  decide

/-- Claim C8 amended: the display state has exactly the four states `None`,
`ProgressDrawn`, `Printed` and `IncompleteLine` (there is no `Fresh` state);
the destination-viability probe happens once, in `View::new`, which clears
`progress_enabled` when the destination is not possible and leaves the
options untouched otherwise; the initial state is `None`; and neither
`paint_progress` nor `write` ever changes the options, so the clearing is
permanent. -/
theorem C8_four_states_probe_at_new {M : Type} [Model M] (m : M)
    (opts : Options) (env : Env) (v : InnerView M) (buf : List Nat) :
    (∀ st : State, st = State.None ∨ st = State.IncompleteLine
      ∨ (∃ t cy lds, st = State.ProgressDrawn t cy lds)
      ∨ (∃ lp, st = State.Printed lp))
    ∧ (opts.destination.is_possible env = false →
        (viewNew m opts env).options.progress_enabled = false)
    ∧ (opts.destination.is_possible env = true →
        (viewNew m opts env).options = opts)
    ∧ (viewNew m opts env).state = State.None
    ∧ (v.paint_progress env).options = v.options
    ∧ (writeView (v.write env buf)).options = v.options := by
  refine ⟨?_, ?_, ?_, rfl, (paint_options v env).1, write_options v env buf⟩
  · intro st
    cases st with
    | None => exact Or.inl rfl
    | ProgressDrawn t cy lds => exact Or.inr (Or.inr (Or.inl ⟨t, cy, lds, rfl⟩))
    | Printed lp => exact Or.inr (Or.inr (Or.inr ⟨lp, rfl⟩))
    | IncompleteLine => exact Or.inr (Or.inl rfl)
  · intro h
    simp [viewNew, InnerView.new, h]
  · intro h
    simp [viewNew, InnerView.new, h]

/-- Witness for C8 amended: the probe outcome at construction for a non-tty
stdout destination and for the always-possible Capture destination. -/
theorem C8_four_states_probe_at_new_witness :
    c8Options.destination.is_possible c8Env = false
    ∧ c8View.options.progress_enabled = false
    ∧ c3Options.destination.is_possible c3Env = true
    ∧ c3Fresh.options = c3Options := by
  refine ⟨by decide, ?_, by decide, ?_⟩
  · exact (@C8_four_states_probe_at_new CountModel _ { i := 0 } c8Options c8Env
      pView []).2.1 (by decide)
  · exact (@C8_four_states_probe_at_new CountModel _ { i := 0 } c3Options c3Env
      pView []).2.2.1 (by decide)

/-- Claim C9: a non-empty write whose bytes are not valid UTF-8 panics (the
`.expect("message is not UTF-8")` on `from_utf8`), and the panic happens only
after the painted bar has been cleared (`hide` has already emitted the clear
sequence when a bar was drawn) and the state has moved to `Printed` or
`IncompleteLine` — the view carried at the panic shows both effects applied,
so the operation is not atomic on this error. -/
theorem C9_invalid_utf8_panics {M : Type} (v : InnerView M) (env : Env)
    (buf : List Nat) (h1 : buf ≠ []) (h2 : from_utf8 buf = none) :
    v.write env buf = Except.error { v.hide with state :=
        if (buf.getLast? == some 10) then State.Printed (v.clock env)
        else State.IncompleteLine }
    ∧ (∀ t cy lds, v.state = State.ProgressDrawn t cy lds →
        v.hide.out = v.out ++ (up_n_lines_and_home cy ++ CLEAR_TO_END_OF_SCREEN
          ++ ENABLE_LINE_WRAP)
        ∧ v.hide.state = State.None) := by
  refine ⟨write_invalid v env buf h1 h2, ?_⟩
  intro t cy lds h
  rw [hide_of_drawn v t cy lds h]
  exact ⟨rfl, rfl⟩

/-- Witness for C9 at the drawn view `pView` with the invalid byte 0xFF. -/
theorem C9_invalid_utf8_panics_witness :
    ([255] : List Nat) ≠ []
    ∧ from_utf8 [255] = none
    ∧ pView.write c3Env [255] = Except.error { pView.hide with state :=
        if (([255] : List Nat).getLast? == some 10) then State.Printed (pView.clock c3Env)
        else State.IncompleteLine }
    ∧ pView.hide.out = pView.out ++ (up_n_lines_and_home 0
        ++ CLEAR_TO_END_OF_SCREEN ++ ENABLE_LINE_WRAP) := by
  refine ⟨by decide, by decide, ?_, ?_⟩
  · exact (C9_invalid_utf8_panics pView c3Env [255] (by decide) (by decide)).1
  · exact ((C9_invalid_utf8_panics pView c3Env [255] (by decide)
      (by decide)).2 0 0 "count: 4" (by decide)).1

/-- Claim C10: for the Capture destination the viability check always
succeeds and the width strategy is the fixed 80-column one that always
returns `some 80`; hence `View::new` never disables `progress_enabled` for a
Capture view and a paint attempt on a Capture view never lacks a width. -/
theorem C10_capture_deterministic {M : Type} (m : M) (opts : Options)
    (env env2 : Env) (h : opts.destination = Destination.Capture) :
    Destination.Capture.is_possible env = true
    ∧ Destination.Capture.width_strategy = WidthStrategy.Fixed 80
    ∧ (WidthStrategy.Fixed 80).width env = some 80
    ∧ (viewNew m opts env).options.progress_enabled = opts.progress_enabled
    ∧ (viewNew m opts env).width_strategy.width env2 = some 80 := by
  refine ⟨rfl, rfl, rfl, ?_, ?_⟩
  · simp [viewNew, InnerView.new, Destination.is_possible, h]
  · simp [viewNew, InnerView.new, Destination.is_possible,
      Destination.width_strategy, WidthStrategy.width, h]

/-- Witness for C10 at a concrete Capture view. -/
theorem C10_capture_deterministic_witness :
    c3Options.destination = Destination.Capture
    ∧ c3Fresh.options.progress_enabled = c3Options.progress_enabled
    ∧ c3Fresh.width_strategy.width c8Env = some 80 := by
  refine ⟨by decide, ?_, ?_⟩
  · exact (@C10_capture_deterministic CountModel { i := 0 } c3Options c3Env
      c8Env (by decide)).2.2.2.1
  · exact (@C10_capture_deterministic CountModel { i := 0 } c3Options c3Env
      c8Env (by decide)).2.2.2.2

end Nutmeg
